import Mathlib

/-!
Verification development for the subscription-gated download admission and
queueing subsystem of the beast_downloader_bot repository.

The definitions below are shallow embeddings of the Python source:
  - src/beast_downloader_bot/src/config.py          (SubscriptionConfig.plans)
  - src/beast_downloader_bot/src/database/redis_client.py  (RedisManager)
  - src/beast_downloader_bot/src/database/models.py  (User, statuses)
  - src/beast_downloader_bot/src/database/mongo_client.py  (MongoManager)
  - src/beast_downloader_bot/src/handlers/download_handler.py
  - src/beast_downloader_bot/src/tasks/download_tasks.py
  - src/database/crud.py                             (SQL variant)

Timestamps are modelled as integers (the unit is irrelevant to the
properties proved; day-valued durations use the same unit).  Redis counter
keys are modelled as an optional record of stored integer value and
remaining TTL, with the absent key reading as zero exactly as the source
does (`int(x) if x else 0`).
-/

namespace BeastBot

/-- Subscription tiers, from `SubscriptionType` in
src/beast_downloader_bot/src/database/models.py. -/
inductive SubTier
  | free
  | bronze
  | silver
  | gold
deriving DecidableEq, Repr

/-- One entry of `SubscriptionConfig.plans` (src/beast_downloader_bot/src/config.py):
`daily_limit` and `max_duration` use -1 for unlimited. -/
structure Plan where
  dailyLimit : Int
  maxFileSize : Int
  maxDuration : Int
  concurrentDownloads : Int
deriving DecidableEq, Repr

/-- The `free` plan of SubscriptionConfig. -/
def freePlan : Plan := ⟨5, 50 * 1024 * 1024, 600, 1⟩

/-- The `bronze` plan of SubscriptionConfig. -/
def bronzePlan : Plan := ⟨50, 200 * 1024 * 1024, 1800, 2⟩

/-- The `silver` plan of SubscriptionConfig. -/
def silverPlan : Plan := ⟨150, 500 * 1024 * 1024, 3600, 3⟩

/-- The `gold` plan of SubscriptionConfig. -/
def goldPlan : Plan := ⟨-1, 2 * 1024 * 1024 * 1024, -1, 5⟩

/-- Lookup `subscription_config.plans[subscription.value]`. -/
def planOf : SubTier → Plan
  | .free => freePlan
  | .bronze => bronzePlan
  | .silver => silverPlan
  | .gold => goldPlan

/-! ## Daily usage counter (UserActivity / Redis hash activity:{user}:{date})

`RedisManager.check_user_limit` (redis_client.py lines 86-118) reads the
day's `downloads_count` and denies when the plan's finite daily limit is
reached; `RedisManager.increment_user_downloads` (lines 67-84) performs
`HINCRBY downloads_count 1`. -/

/-- The daily-limit test of `check_user_limit` (redis_client.py line 93):
deny iff `daily_limit != -1 and downloads_count >= daily_limit`. -/
def dailyLimitReached (dailyLimit : Int) (downloadsCount : Nat) : Bool :=
  dailyLimit != -1 && dailyLimit ≤ (downloadsCount : Int)

/-- Effect of `increment_user_downloads` on the day's `downloads_count`
(redis_client.py line 75, `HINCRBY key downloads_count 1`). -/
def incrementUserDownloads (downloadsCount : Nat) : Nat :=
  downloadsCount + 1

/-- Outcome of one quota reservation. -/
inductive ReserveResult
  | ok (newCount : Nat)
  | deniedDailyQuota (current : Nat) (limit : Int)
deriving DecidableEq, Repr

/-- The spec's `try_reserve_download` as realised by the source: the
daily-limit branch of `check_user_limit` followed, on success, by
`increment_user_downloads`; a denial performs no increment. -/
def tryReserveDownload (dailyLimit : Int) (downloadsCount : Nat) : ReserveResult :=
  if dailyLimitReached dailyLimit downloadsCount then
    .deniedDailyQuota downloadsCount dailyLimit
  else
    .ok (incrementUserDownloads downloadsCount)

/-- Iterate `tryReserveDownload` within one day; `none` when some
reservation in the run was denied. -/
def reserveRepeat (dailyLimit : Int) : Nat → Nat → Option Nat
  | 0, c => some c
  | n + 1, c =>
    match tryReserveDownload dailyLimit c with
    | .ok c2 => reserveRepeat dailyLimit n c2
    | .deniedDailyQuota _ _ => none

/-! ## Per-user concurrency counter (Redis key concurrent:{user}) -/

/-- Stored integer value and remaining TTL in seconds (`none` = no expiry)
of the Redis key `concurrent:{user_id}`. -/
structure ConcKey where
  value : Int
  ttl : Option Nat
deriving DecidableEq, Repr

/-- The key slot: `none` when the key is absent from Redis. -/
abbrev ConcState := Option ConcKey

/-- Reading the counter as `check_user_limit` does (redis_client.py
lines 101-103): a missing key reads as 0. -/
def concValue : ConcState → Int
  | none => 0
  | some k => k.value

/-- Remaining TTL of the key, `none` when absent or persistent. -/
def concTTL : ConcState → Option Nat
  | none => none
  | some k => k.ttl

/-- Redis INCR: a missing key is created at 1 with no TTL. -/
def redisIncr : ConcState → ConcState × Int
  | none => (some ⟨1, none⟩, 1)
  | some k => (some ⟨k.value + 1, k.ttl⟩, k.value + 1)

/-- Redis DECR: a missing key is created at -1 with no TTL. -/
def redisDecr : ConcState → ConcState × Int
  | none => (some ⟨-1, none⟩, -1)
  | some k => (some ⟨k.value - 1, k.ttl⟩, k.value - 1)

/-- Redis EXPIRE key t: sets the TTL when the key exists. -/
def redisExpire (t : Nat) : ConcState → ConcState
  | none => none
  | some k => some ⟨k.value, some t⟩

/-- RedisManager.set_concurrent_download (redis_client.py lines 120-132):
increment = INCR then EXPIRE 3600; decrement = DECR then DEL when the
result is ≤ 0; both return `max(0, value)`. -/
def setConcurrentDownload (increment : Bool) (s : ConcState) : ConcState × Int :=
  if increment then
    let r := redisIncr s
    (redisExpire 3600 r.1, max 0 r.2)
  else
    let r := redisDecr s
    if r.2 ≤ 0 then (none, max 0 r.2) else (r.1, max 0 r.2)

/-- Passage of `t` seconds of Redis wall-clock time with no intervening
command: a key whose TTL elapses is evicted. -/
def elapse (t : Nat) : ConcState → ConcState
  | none => none
  | some k =>
    match k.ttl with
    | none => some k
    | some rem => if rem ≤ t then none else some ⟨k.value, some (rem - t)⟩

/-- The concurrency branch of `check_user_limit` followed by the
increment performed by `handle_download_callback` on admission
(download_handler.py lines 248-259): deny (state unchanged) when the
current count is at or above the plan's concurrent limit, else increment. -/
def admissionStep (concurrentLimit : Int) (s : ConcState) : ConcState :=
  if concurrentLimit ≤ concValue s then s
  else (setConcurrentDownload true s).1

/-- The unguarded increment performed at worker-task start
(_process_download_async, download_tasks.py line 135). -/
def taskStartIncrement (s : ConcState) : ConcState :=
  (setConcurrentDownload true s).1

/-- A slot release: set_concurrent_download with increment=False. -/
def releaseStep (s : ConcState) : ConcState :=
  (setConcurrentDownload false s).1

/-- Auxiliary for C1: a run of reservations that stays within the limit
succeeds throughout and adds exactly its length to the counter. -/
theorem reserveRepeat_adds (q : Nat) :
    ∀ (n c : Nat), n + c ≤ q → reserveRepeat (q : Int) n c = some (c + n) := by
  intro n
  induction n with
  | zero => intro c _; simp [reserveRepeat]
  | succ m ih =>
    intro c hc
    have hlt : c < q := by omega
    have hcheck : dailyLimitReached (q : Int) c = false := by
      simp only [dailyLimitReached, Bool.and_eq_false_iff]
      right
      simp only [decide_eq_false_iff_not, not_le]
      exact_mod_cast hlt
    have : reserveRepeat (q : Int) (m + 1) c = reserveRepeat (q : Int) m (c + 1) := by
      simp [reserveRepeat, tryReserveDownload, hcheck, incrementUserDownloads]
    rw [this, ih (c + 1) (by omega)]
    congr 1
    omega

/-- C1: with an UNLIMITED (-1) daily quota a reservation always succeeds;
with a finite quota q, a run of n ≤ q reservations within the day starting
from a fresh counter succeeds throughout and leaves `downloads_used = n`;
and one further reservation attempted when `downloads_used` equals q is
denied with the daily-quota reason and performs no increment (the denial
carries the unchanged count q). -/
theorem quota_reservation_monotone (q n c : Nat) :
    tryReserveDownload (-1) c = .ok (c + 1) ∧
    (n ≤ q → reserveRepeat (q : Int) n 0 = some n) ∧
    tryReserveDownload (q : Int) q = .deniedDailyQuota q q := by
  refine ⟨?_, ?_, ?_⟩
  · simp [tryReserveDownload, dailyLimitReached, incrementUserDownloads]
  · intro hn
    have := reserveRepeat_adds q n 0 (by omega)
    simpa using this
  · have hcheck : dailyLimitReached (q : Int) q = true := by
      simp [dailyLimitReached]
    simp [tryReserveDownload, hcheck]

/-- C1 witness: a concrete instantiation, quota 5, run of 3 reservations. -/
theorem quota_reservation_monotone_witness :
    tryReserveDownload (-1) 2 = .ok 3 ∧
    reserveRepeat (5 : Int) 3 0 = some 3 ∧
    tryReserveDownload (5 : Int) 5 = .deniedDailyQuota 5 5 :=
  ⟨(quota_reservation_monotone 5 3 2).1,
   (quota_reservation_monotone 5 3 2).2.1 (by decide),
   (quota_reservation_monotone 5 3 2).2.2⟩

/-- C10: every increment stores value+1 with TTL reset to 3600 seconds; a
decrement that brings the counter to zero or below deletes the key (and
otherwise keeps the old TTL); the decrement returns max(0, value); and one
hour after the last increment, with no further command, the key has
expired and the counter reads 0. -/
theorem concurrent_counter_ttl (s : ConcState) :
    (setConcurrentDownload true s).1 = some ⟨concValue s + 1, some 3600⟩ ∧
    (setConcurrentDownload false s).1 =
      (if concValue s - 1 ≤ 0 then none else some ⟨concValue s - 1, concTTL s⟩) ∧
    (setConcurrentDownload false s).2 = max 0 (concValue s - 1) ∧
    concValue (elapse 3600 ((setConcurrentDownload true s).1)) = 0 := by
  refine ⟨?_, ?_, ?_, ?_⟩
  · cases s <;> rfl
  · cases s with
    | none => decide
    | some k =>
      by_cases h : k.value - 1 ≤ 0 <;>
        simp [setConcurrentDownload, redisDecr, concValue, concTTL, h]
  · cases s with
    | none => decide
    | some k =>
      by_cases h : k.value - 1 ≤ 0 <;>
        simp [setConcurrentDownload, redisDecr, concValue, h]
  · cases s <;> rfl

/-- C2: the claimed ceiling invariant fails on the code.  The lower-bound
half holds: a release never leaves a negative stored count.  But for a
FREE user (`concurrent_downloads = 1`) the single admission at
handle_download_callback (guarded increment) followed by the unguarded
increment at worker-task start drives the stored counter to 2, exceeding
max_concurrent = 1. -/
theorem concurrency_ceiling_violated :
    (∀ s : ConcState, 0 ≤ concValue (releaseStep s)) ∧
    freePlan.concurrentDownloads = 1 ∧
    concValue (taskStartIncrement (admissionStep freePlan.concurrentDownloads none)) = 2 := by
  refine ⟨?_, by decide, by decide⟩
  intro s
  cases s with
  | none => decide
  | some k =>
    by_cases h : k.value - 1 ≤ 0
    · simp [releaseStep, setConcurrentDownload, redisDecr, h, concValue]
    · simp [releaseStep, setConcurrentDownload, redisDecr, h, concValue]
      omega

/-! ## Interleaved admissions (C3)

`handle_download_callback` runs `check_user_limit` (a Redis GET of the
concurrency counter and a comparison in Python) and only afterwards, in a
separate round-trip, `set_concurrent_download(increment=True)` (a Redis
INCR).  Two coroutines serving the same user can interleave these two
steps arbitrarily. -/

/-- Local state of one in-flight admission attempt. -/
structure Caller where
  snapshot : Option Int
  admitted : Bool
deriving DecidableEq, Repr

/-- Combined state of the shared counter and two concurrent callers. -/
structure TwoCallers where
  store : ConcState
  a : Caller
  b : Caller
deriving DecidableEq, Repr

/-- Caller identity. -/
inductive Who
  | A
  | B
deriving DecidableEq, Repr

/-- The concurrency read inside check_user_limit (redis_client.py
lines 101-103), performed by one caller. -/
def checkRead (w : Who) (st : TwoCallers) : TwoCallers :=
  match w with
  | .A => { st with a := { st.a with snapshot := some (concValue st.store) } }
  | .B => { st with b := { st.b with snapshot := some (concValue st.store) } }

/-- The continuation of handle_download_callback after the check: if the
snapshot this caller read was below the limit the request was admitted and
set_concurrent_download(increment=True) runs; otherwise nothing happens. -/
def admitFromSnapshot (limit : Int) (w : Who) (st : TwoCallers) : TwoCallers :=
  match w with
  | .A =>
    match st.a.snapshot with
    | some v =>
      if v < limit then
        { st with store := (setConcurrentDownload true st.store).1,
                  a := { st.a with admitted := true } }
      else st
    | none => st
  | .B =>
    match st.b.snapshot with
    | some v =>
      if v < limit then
        { st with store := (setConcurrentDownload true st.store).1,
                  b := { st.b with admitted := true } }
      else st
    | none => st

/-- Initial state: counter absent (reads 0 = max_concurrent - 1 for the
FREE plan's limit 1), neither caller has run. -/
def twoCallersInit : TwoCallers := ⟨none, ⟨none, false⟩, ⟨none, false⟩⟩

/-- The interleaving check(A); check(B); increment(A); increment(B). -/
def racedFinal : TwoCallers :=
  admitFromSnapshot freePlan.concurrentDownloads .B
    (admitFromSnapshot freePlan.concurrentDownloads .A
      (checkRead .B (checkRead .A twoCallersInit)))

/-- C3: the check and the increment are separate Redis commands, so two
interleaved admissions for the same user at max_concurrent - 1 both pass
the check and both increment: both end admitted and the stored counter
reaches 2 with the FREE plan's limit of 1. -/
theorem check_then_increment_races :
    racedFinal.a.admitted = true ∧
    racedFinal.b.admitted = true ∧
    concValue racedFinal.store = 2 ∧
    freePlan.concurrentDownloads = 1 := by
  decide

/-! ## Subscription state (C4, C5)

Two implementations live in the repository: the Mongo-backed bot
(src/beast_downloader_bot) stores `subscription` and
`subscription_expires` on the user document, and the SQL variant
(src/database) stores a Subscription row with `plan`, `end_date`,
`is_active`. -/

/-- The subscription-relevant fields of the Mongo `User` document
(models.py lines 26-45): stored tier and optional expiry timestamp. -/
structure MUser where
  subscription : SubTier
  subscriptionExpires : Option Int
deriving DecidableEq, Repr

/-- MongoManager.update_subscription (mongo_client.py lines 126-144):
sets the tier and sets `subscription_expires := now + days`,
unconditionally — the current expiry is never read.  Time is measured in
days here, matching `timedelta(days=days)`. -/
def mongoUpdateSubscription (u : MUser) (tier : SubTier) (days now : Int) : MUser :=
  { u with subscription := tier, subscriptionExpires := some (now + days) }

/-- User.is_premium (models.py lines 88-95): False for FREE; False when an
expiry is stored and is strictly before now; True otherwise.  Reads only
the stored fields, mutates nothing. -/
def isPremium (u : MUser) (now : Int) : Bool :=
  if u.subscription = SubTier.free then false
  else
    match u.subscriptionExpires with
    | some e => if e < now then false else true
    | none => true

/-- The tier whose limits gate admission in handle_url
(download_handler.py lines 60-66) and handle_download_callback
(lines 249-251): `db_user.subscription`, read directly from the stored
user with no expiry derivation. -/
def admissionTier (u : MUser) : SubTier :=
  u.subscription

/-- Modelled from the spec: `effective_tier(user_id, now)` returns FREE if
`expires_at` is non-null and `<= now`, else the stored tier.  No such
derivation exists in the source; this definition follows §4.2 of the spec
and is used only for comparison with the source's `admissionTier`. -/
def effectiveTierSpec (u : MUser) (now : Int) : SubTier :=
  match u.subscriptionExpires with
  | some e => if e ≤ now then SubTier.free else u.subscription
  | none => u.subscription

/-- A stored SILVER user whose subscription expired at time 0. -/
def expiredSilverUser : MUser := ⟨SubTier.silver, some 0⟩

/-- C5: admission reads the stored tier, not the effective tier.  For a
stored SILVER user whose expiry has passed (and whom the periodic sweep
has not yet rewritten), the admission path selects the SILVER limits
(daily limit 150) while the spec's effective tier is FREE (daily limit 5).
The model `is_premium` derivation does evaluate this user as non-premium. -/
theorem admission_uses_stored_tier :
    admissionTier expiredSilverUser = SubTier.silver ∧
    effectiveTierSpec expiredSilverUser 5 = SubTier.free ∧
    admissionTier expiredSilverUser ≠ effectiveTierSpec expiredSilverUser 5 ∧
    (planOf (admissionTier expiredSilverUser)).dailyLimit = 150 ∧
    (planOf (effectiveTierSpec expiredSilverUser 5)).dailyLimit = 5 ∧
    isPremium expiredSilverUser 5 = false := by
  decide

/-- A Subscription row of the SQL variant (src/database/models.py via
crud.py): plan, start/end dates, active flag, per-day usage bookkeeping. -/
structure SqlSubscription where
  plan : SubTier
  startDate : Int
  endDate : Option Int
  isActive : Bool
  dailyDownloadsUsed : Nat
  lastDownloadReset : Int
deriving DecidableEq, Repr

/-- The filter of crud.get_user_subscription (crud.py lines 51-60): the
stored row counts as the active subscription when `is_active` and its
`end_date` is null or strictly after now. -/
def isActiveSubscription (now : Int) (s : SqlSubscription) : Bool :=
  s.isActive &&
    (match s.endDate with
     | none => true
     | some e => now < e)

/-- crud.get_user_subscription applied to the user's stored row (if any). -/
def getUserSubscription (row : Option SqlSubscription) (now : Int) : Option SqlSubscription :=
  match row with
  | none => none
  | some s => if isActiveSubscription now s then some s else none

/-- crud.update_subscription_plan (crud.py lines 62-93): with no active
subscription, a fresh row expiring at now + duration; with an active one,
the end date becomes `end_date + duration` when `end_date` is non-null and
still in the future, else `now + duration`; the plan is set, daily usage
reset, the row reactivated. -/
def updateSubscriptionPlan (sub : Option SqlSubscription) (plan : SubTier)
    (now durationDays : Int) : SqlSubscription :=
  match sub with
  | none =>
    { plan := plan, startDate := now, endDate := some (now + durationDays),
      isActive := true, dailyDownloadsUsed := 0, lastDownloadReset := now }
  | some s =>
    let newEnd : Int :=
      match s.endDate with
      | some e => if now < e then e + durationDays else now + durationDays
      | none => now + durationDays
    { s with plan := plan, startDate := now, endDate := some newEnd,
             isActive := true, dailyDownloadsUsed := 0, lastDownloadReset := now }

/-- The SQL variant's apply_payment pipeline: get_user_subscription then
update_subscription_plan, as complete_payment does (crud.py lines 135-150). -/
def applyPaymentSql (row : Option SqlSubscription) (plan : SubTier)
    (now durationDays : Int) : SqlSubscription :=
  updateSubscriptionPlan (getUserSubscription row now) plan now durationDays

/-- C4 counterexample: the claim fails on the Mongo path.  A SILVER user
whose subscription expires 10 days from now (now = 0), renewed for 30
days, gets expiry 30 — MongoManager.update_subscription ignores the
current expiry — while the claim demands max(10, 0) + 30 = 40. -/
theorem mongo_renewal_does_not_extend :
    (mongoUpdateSubscription ⟨SubTier.silver, some 10⟩ SubTier.silver 30 0).subscriptionExpires
      = some 30 ∧
    max (10 : Int) 0 + 30 = 40 ∧
    (some (30 : Int)) ≠ some (40 : Int) := by
  decide

/-- C4 amended: in the SQL path (crud.update_subscription_plan), a payment
on a row that is active with a future expiry e yields expiry
max(e, now) + duration; a payment on an active row with a null end_date
yields now + duration; a payment whose stored row fails the active filter
(expired or inactive, whatever its end_date) yields now + duration, as
does one with no stored row at all; in the Mongo path
(MongoManager.update_subscription), the new expiry is always
now + duration, regardless of the current subscription. -/
theorem renewal_extension_by_path (row : SqlSubscription) (u : MUser)
    (tier : SubTier) (now dur e : Int) :
    (row.isActive = true → row.endDate = some e → now < e →
      (applyPaymentSql (some row) tier now dur).endDate = some (max e now + dur)) ∧
    (row.isActive = true → row.endDate = none →
      (applyPaymentSql (some row) tier now dur).endDate = some (now + dur)) ∧
    (isActiveSubscription now row = false →
      (applyPaymentSql (some row) tier now dur).endDate = some (now + dur)) ∧
    (applyPaymentSql none tier now dur).endDate = some (now + dur) ∧
    (mongoUpdateSubscription u tier dur now).subscriptionExpires = some (now + dur) := by
  refine ⟨?_, ?_, ?_, rfl, rfl⟩
  · intro hact hid hfut
    have hfilter : isActiveSubscription now row = true := by
      simp [isActiveSubscription, hact, hid, hfut]
    have hmax : max e now = e := by omega
    simp [applyPaymentSql, getUserSubscription, hfilter, updateSubscriptionPlan,
      hid, hfut, hmax]
  · intro hact hid
    have hfilter : isActiveSubscription now row = true := by
      simp [isActiveSubscription, hact, hid]
    simp [applyPaymentSql, getUserSubscription, hfilter, updateSubscriptionPlan, hid]
  · intro hfilter
    simp [applyPaymentSql, getUserSubscription, hfilter, updateSubscriptionPlan]

/-- C4 witness: a SILVER row active until day 10 renewed for 30 days at
now = 0 ends at day 40; the same payment on an active row with a null
end_date ends at day 30; on an expired row (ended at day -5) it ends at
day 30; and the Mongo path gives day 30 even with 10 days remaining. -/
theorem renewal_extension_by_path_witness :
    (applyPaymentSql (some ⟨SubTier.silver, 0, some 10, true, 3, 0⟩)
        SubTier.silver 0 30).endDate = some 40 ∧
    (applyPaymentSql (some ⟨SubTier.silver, 0, none, true, 3, 0⟩)
        SubTier.silver 0 30).endDate = some 30 ∧
    (applyPaymentSql (some ⟨SubTier.silver, 0, some (-5), true, 3, 0⟩)
        SubTier.silver 0 30).endDate = some 30 ∧
    (mongoUpdateSubscription ⟨SubTier.silver, some 10⟩ SubTier.silver 30 0).subscriptionExpires
      = some 30 := by
  refine ⟨?_, ?_, ?_, ?_⟩
  · have h := (renewal_extension_by_path ⟨SubTier.silver, 0, some 10, true, 3, 0⟩
      ⟨SubTier.silver, some 10⟩ SubTier.silver 0 30 10).1 rfl rfl (by decide)
    simpa using h
  · exact (renewal_extension_by_path ⟨SubTier.silver, 0, none, true, 3, 0⟩
      ⟨SubTier.silver, some 10⟩ SubTier.silver 0 30 0).2.1 rfl rfl
  · exact (renewal_extension_by_path ⟨SubTier.silver, 0, some (-5), true, 3, 0⟩
      ⟨SubTier.silver, some 10⟩ SubTier.silver 0 30 (-5)).2.2.1 (by decide)
  · exact (renewal_extension_by_path ⟨SubTier.silver, 0, some 10, true, 3, 0⟩
      ⟨SubTier.silver, some 10⟩ SubTier.silver 0 30 10).2.2.2.2

/-! ## Priority queue lanes (C7, C8, C9)

`RedisManager.add_to_download_queue` (redis_client.py lines 176-194) puts
the download payload into the sorted set `download_queue:{priority}` with
the current wall-clock timestamp as score; arrival timestamps strictly
increase, so each lane is its arrival-ordered list and ZRANK of a newly
added member is its index, the lane's previous length.  Priorities are
1 = gold, 2 = silver, 3 = bronze, 4 = free (default 4). -/

/-- The download payload enqueued by handle_download_callback
(download_handler.py lines 291-295). -/
structure DData where
  downloadId : String
  userId : Int
  subscription : String
deriving DecidableEq, Repr

/-- The priority dict of add_to_download_queue (redis_client.py
lines 180-185), default 4. -/
def priorityOf (subscription : String) : Nat :=
  if subscription = "gold" then 1
  else if subscription = "silver" then 2
  else if subscription = "bronze" then 3
  else if subscription = "free" then 4
  else 4

/-- The four lanes download_queue:1 .. download_queue:4. -/
structure Queues where
  lane1 : List DData
  lane2 : List DData
  lane3 : List DData
  lane4 : List DData
deriving DecidableEq, Repr

/-- All lanes empty. -/
def emptyQueues : Queues := ⟨[], [], [], []⟩

/-- Read the lane stored under a priority (priorities outside 1-4 do not
occur; 4 is the default). -/
def getLane (q : Queues) : Nat → List DData
  | 1 => q.lane1
  | 2 => q.lane2
  | 3 => q.lane3
  | _ => q.lane4

/-- Replace the lane stored under a priority. -/
def setLane (q : Queues) (p : Nat) (l : List DData) : Queues :=
  match p with
  | 1 => { q with lane1 := l }
  | 2 => { q with lane2 := l }
  | 3 => { q with lane3 := l }
  | _ => { q with lane4 := l }

/-- RedisManager.add_to_download_queue (lines 176-194): ZADD into the
subscription's lane; the returned position is ZRANK + 1, i.e. the lane's
previous length + 1. -/
def addToDownloadQueue (q : Queues) (d : DData) : Queues × Nat :=
  let p := priorityOf d.subscription
  let lane := getLane q p
  (setLane q p (lane ++ [d]), lane.length + 1)

/-- Index of the first member of a lane whose download_id matches, as the
ZRANGE scan of get_queue_position does. -/
def laneFind (lane : List DData) (id : String) : Option Nat :=
  lane.findIdx? (fun d => d.downloadId = id)

/-- RedisManager.get_queue_position (redis_client.py lines 196-208): scan
priorities 1..4 and return i + 1 for the first lane containing the id,
where i is the index within that lane alone; None when absent. -/
def getQueuePosition (q : Queues) (id : String) : Option Nat :=
  match laneFind q.lane1 id with
  | some i => some (i + 1)
  | none =>
    match laneFind q.lane2 id with
    | some i => some (i + 1)
    | none =>
      match laneFind q.lane3 id with
      | some i => some (i + 1)
      | none =>
        match laneFind q.lane4 id with
        | some i => some (i + 1)
        | none => none

/-- Modelled from the spec: `dequeue_next` scans lanes in ascending
priority_weight order and pops the oldest entry of the first non-empty
lane (§4.5).  The repository contains no dequeue over these Redis lanes —
workers are driven by Celery — so this operation follows the spec's words. -/
def dequeueNext (q : Queues) : Option DData × Queues :=
  match q.lane1 with
  | d :: rest => (some d, { q with lane1 := rest })
  | [] =>
    match q.lane2 with
    | d :: rest => (some d, { q with lane2 := rest })
    | [] =>
      match q.lane3 with
      | d :: rest => (some d, { q with lane3 := rest })
      | [] =>
        match q.lane4 with
        | d :: rest => (some d, { q with lane4 := rest })
        | [] => (none, q)

/-- Drain up to n jobs in dequeue order. -/
def dequeueList : Nat → Queues → List DData
  | 0, _ => []
  | n + 1, q =>
    match dequeueNext q with
    | (some d, q2) => d :: dequeueList n q2
    | (none, _) => []

/-- C7: dequeue_next serves the head of the non-empty lane of smallest
priority (gold before silver before bronze before free), FIFO within a
lane: enqueuing one job per tier in arrival order free, bronze, silver,
gold dequeues as gold, silver, bronze, free; and two free jobs enqueued A
then B dequeue as A then B. -/
theorem dequeue_priority_then_fifo (q : Queues) (f1 f2 b s g : DData)
    (hf1 : f1.subscription = "free") (hf2 : f2.subscription = "free")
    (hb : b.subscription = "bronze") (hs : s.subscription = "silver")
    (hg : g.subscription = "gold") :
    (q.lane1 ≠ [] → (dequeueNext q).1 = q.lane1.head?) ∧
    (q.lane1 = [] → q.lane2 ≠ [] → (dequeueNext q).1 = q.lane2.head?) ∧
    (q.lane1 = [] → q.lane2 = [] → q.lane3 ≠ [] → (dequeueNext q).1 = q.lane3.head?) ∧
    (q.lane1 = [] → q.lane2 = [] → q.lane3 = [] → (dequeueNext q).1 = q.lane4.head?) ∧
    dequeueList 4
      ((addToDownloadQueue
        ((addToDownloadQueue
          ((addToDownloadQueue
            ((addToDownloadQueue emptyQueues f1).1) b).1) s).1) g).1)
      = [g, s, b, f1] ∧
    dequeueList 2 ((addToDownloadQueue ((addToDownloadQueue emptyQueues f1).1) f2).1)
      = [f1, f2] := by
  obtain ⟨l1, l2, l3, l4⟩ := q
  refine ⟨?_, ?_, ?_, ?_, ?_, ?_⟩
  · intro h1
    cases l1 with
    | nil => exact absurd rfl h1
    | cons d rest => rfl
  · intro h1 h2
    cases l1 with
    | cons d rest => exact absurd h1 (by simp)
    | nil =>
      cases l2 with
      | nil => exact absurd rfl h2
      | cons d rest => rfl
  · intro h1 h2 h3
    cases l1 with
    | cons d rest => exact absurd h1 (by simp)
    | nil =>
      cases l2 with
      | cons d rest => exact absurd h2 (by simp)
      | nil =>
        cases l3 with
        | nil => exact absurd rfl h3
        | cons d rest => rfl
  · intro h1 h2 h3
    cases l1 with
    | cons d rest => exact absurd h1 (by simp)
    | nil =>
      cases l2 with
      | cons d rest => exact absurd h2 (by simp)
      | nil =>
        cases l3 with
        | cons d rest => exact absurd h3 (by simp)
        | nil => cases l4 <;> rfl
  · simp [addToDownloadQueue, priorityOf, hf1, hb, hs, hg, getLane, setLane,
      emptyQueues, dequeueList, dequeueNext]
  · simp [addToDownloadQueue, priorityOf, hf1, hf2, getLane, setLane,
      emptyQueues, dequeueList, dequeueNext]

/-- C7 witness: concrete jobs, one per tier, plus a second free job. -/
theorem dequeue_priority_then_fifo_witness :
    dequeueList 4
      ((addToDownloadQueue
        ((addToDownloadQueue
          ((addToDownloadQueue
            ((addToDownloadQueue emptyQueues ⟨"jf", 1, "free"⟩).1) ⟨"jb", 2, "bronze"⟩).1)
          ⟨"js", 3, "silver"⟩).1) ⟨"jg", 4, "gold"⟩).1)
      = [⟨"jg", 4, "gold"⟩, ⟨"js", 3, "silver"⟩, ⟨"jb", 2, "bronze"⟩, ⟨"jf", 1, "free"⟩] ∧
    dequeueList 2
      ((addToDownloadQueue ((addToDownloadQueue emptyQueues ⟨"a", 1, "free"⟩).1)
        ⟨"b", 1, "free"⟩).1)
      = [⟨"a", 1, "free"⟩, ⟨"b", 1, "free"⟩] :=
  ⟨(dequeue_priority_then_fifo emptyQueues ⟨"jf", 1, "free"⟩ ⟨"jf", 1, "free"⟩
      ⟨"jb", 2, "bronze"⟩ ⟨"js", 3, "silver"⟩ ⟨"jg", 4, "gold"⟩
      rfl rfl rfl rfl rfl).2.2.2.2.1,
   (dequeue_priority_then_fifo emptyQueues ⟨"a", 1, "free"⟩ ⟨"b", 1, "free"⟩
      ⟨"jb", 2, "bronze"⟩ ⟨"js", 3, "silver"⟩ ⟨"jg", 4, "gold"⟩
      rfl rfl rfl rfl rfl).2.2.2.2.2⟩

/-- Modelled from the claim (spec §4.5): the 1-based global position, all
jobs of strictly higher-priority lanes plus the same-lane jobs ahead,
plus one.  Used only for comparison with the source's get_queue_position. -/
def positionOfSpec (q : Queues) (id : String) : Option Nat :=
  match laneFind q.lane1 id with
  | some i => some (i + 1)
  | none =>
    match laneFind q.lane2 id with
    | some i => some (q.lane1.length + i + 1)
    | none =>
      match laneFind q.lane3 id with
      | some i => some (q.lane1.length + q.lane2.length + i + 1)
      | none =>
        match laneFind q.lane4 id with
        | some i => some (q.lane1.length + q.lane2.length + q.lane3.length + i + 1)
        | none => none

/-- C9 counterexample: with one gold job queued and one free job at the
head of the free lane, the source's get_queue_position reports 1 for the
free job, while the claimed global position is 1 (gold job) + 0 + 1 = 2. -/
theorem queue_position_counterexample :
    getQueuePosition ⟨[⟨"g", 1, "gold"⟩], [], [], [⟨"f", 2, "free"⟩]⟩ "f" = some 1 ∧
    positionOfSpec ⟨[⟨"g", 1, "gold"⟩], [], [], [⟨"f", 2, "free"⟩]⟩ "f" = some 2 ∧
    getQueuePosition ⟨[⟨"g", 1, "gold"⟩], [], [], [⟨"f", 2, "free"⟩]⟩ "f"
      ≠ positionOfSpec ⟨[⟨"g", 1, "gold"⟩], [], [], [⟨"f", 2, "free"⟩]⟩ "f" := by
  decide

/-- C9 amended: get_queue_position returns the 1-based position of the job
within its own lane — the first lane, in ascending priority order, that
contains the id — ignoring how many jobs sit in higher-priority lanes; it
returns not-found exactly when no lane contains the id. -/
theorem queue_position_within_own_lane (q : Queues) (id : String) (i : Nat) :
    (laneFind q.lane1 id = some i → getQueuePosition q id = some (i + 1)) ∧
    (laneFind q.lane1 id = none → laneFind q.lane2 id = some i →
      getQueuePosition q id = some (i + 1)) ∧
    (laneFind q.lane1 id = none → laneFind q.lane2 id = none →
      laneFind q.lane3 id = some i → getQueuePosition q id = some (i + 1)) ∧
    (laneFind q.lane1 id = none → laneFind q.lane2 id = none →
      laneFind q.lane3 id = none → laneFind q.lane4 id = some i →
      getQueuePosition q id = some (i + 1)) ∧
    (laneFind q.lane1 id = none → laneFind q.lane2 id = none →
      laneFind q.lane3 id = none → laneFind q.lane4 id = none →
      getQueuePosition q id = none) := by
  refine ⟨?_, ?_, ?_, ?_, ?_⟩
  · intro h1
    simp [getQueuePosition, h1]
  · intro h1 h2
    simp [getQueuePosition, h1, h2]
  · intro h1 h2 h3
    simp [getQueuePosition, h1, h2, h3]
  · intro h1 h2 h3 h4
    simp [getQueuePosition, h1, h2, h3, h4]
  · intro h1 h2 h3 h4
    simp [getQueuePosition, h1, h2, h3, h4]

/-- C9 amended witness: the counterexample queue, looked up at both jobs. -/
theorem queue_position_within_own_lane_witness :
    getQueuePosition ⟨[⟨"g", 1, "gold"⟩], [], [], [⟨"f", 2, "free"⟩]⟩ "f" = some 1 ∧
    getQueuePosition ⟨[⟨"g", 1, "gold"⟩], [], [], [⟨"f", 2, "free"⟩]⟩ "zz" = none :=
  ⟨(queue_position_within_own_lane
      ⟨[⟨"g", 1, "gold"⟩], [], [], [⟨"f", 2, "free"⟩]⟩ "f" 0).2.2.2.1
      (by decide) (by decide) (by decide) (by decide),
   (queue_position_within_own_lane
      ⟨[⟨"g", 1, "gold"⟩], [], [], [⟨"f", 2, "free"⟩]⟩ "zz" 0).2.2.2.2
      (by decide) (by decide) (by decide) (by decide)⟩

/-! ## Job lifecycle (C6, C8)

The states of `DownloadStatus` (models.py lines 13-18) and the operations
that move a single download through them, together with their effects on
the per-user concurrency counter, the daily counter and the queue lanes.
The ghost field `releases` counts the calls to
`set_concurrent_download(increment=False)` an execution has performed. -/

/-- DownloadStatus (models.py lines 13-18). -/
inductive DownloadStatus
  | pending
  | processing
  | completed
  | failed
  | cancelled
deriving DecidableEq, Repr

/-- Combined state of one download record and the bookkeeping the
operations below touch. -/
structure Sys where
  status : DownloadStatus
  userId : Int
  conc : ConcState
  queues : Queues
  daily : Nat
  releases : Nat
deriving DecidableEq, Repr

/-- Fresh state for a user: no download yet (the record is created at
admission with the dataclass default PENDING), counter key absent, empty
lanes, fresh day. -/
def initialSys (uid : Int) : Sys :=
  ⟨DownloadStatus.pending, uid, none, emptyQueues, 0, 0⟩

/-- handle_download_callback (download_handler.py lines 248-295):
check_user_limit (daily branch then concurrency branch; a denial changes
nothing), then increment the concurrency counter, create the PENDING
download record and ZADD it into its priority lane. -/
def handleDownloadCallbackAdmit (plan : Plan) (d : DData) (s : Sys) : Sys :=
  if dailyLimitReached plan.dailyLimit s.daily then s
  else if plan.concurrentDownloads ≤ concValue s.conc then s
  else
    { s with status := DownloadStatus.pending,
             conc := (setConcurrentDownload true s.conc).1,
             queues := (addToDownloadQueue s.queues d).1 }

/-- Start of _process_download_async (download_tasks.py lines 129-135):
status := PROCESSING and a second, unguarded concurrency increment. -/
def taskStart (s : Sys) : Sys :=
  { s with status := DownloadStatus.processing,
           conc := (setConcurrentDownload true s.conc).1 }

/-- handle_download_complete (download_handler.py lines 360-428):
status := COMPLETED, decrement the concurrency counter, then
increment_user_downloads adds the finished download to the daily count. -/
def handleDownloadComplete (s : Sys) : Sys :=
  { s with status := DownloadStatus.completed,
           conc := (setConcurrentDownload false s.conc).1,
           releases := s.releases + 1,
           daily := incrementUserDownloads s.daily }

/-- The finally block of _process_download_async (download_tasks.py
lines 230-232): one more concurrency decrement, on every exit path. -/
def taskFinalize (s : Sys) : Sys :=
  { s with conc := (setConcurrentDownload false s.conc).1,
           releases := s.releases + 1 }

/-- Result values of _cancel_download_async (download_tasks.py
lines 326-358). -/
inductive CancelOutcome
  | success
  | notFound
  | cannotCancel
deriving DecidableEq, Repr

/-- _cancel_download_async (download_tasks.py lines 326-358): ownership
check, then rejection unless the status is PENDING or PROCESSING, else
mark CANCELLED, revoke the Celery task and decrement the concurrency
counter.  The Redis priority lanes are not touched on any path. -/
def cancelDownloadAsync (requesterId : Int) (s : Sys) : CancelOutcome × Sys :=
  if s.userId ≠ requesterId then (CancelOutcome.notFound, s)
  else if s.status = DownloadStatus.pending ∨ s.status = DownloadStatus.processing then
    (CancelOutcome.success,
      { s with status := DownloadStatus.cancelled,
               conc := (setConcurrentDownload false s.conc).1,
               releases := s.releases + 1 })
  else (CancelOutcome.cannotCancel, s)

/-- A FREE-tier download payload of user 7. -/
def freeJob : DData := ⟨"j1", 7, "free"⟩

/-- A second FREE-tier download payload of user 7. -/
def freeJob2 : DData := ⟨"j2", 7, "free"⟩

/-- The state right after admitting freeJob for a fresh FREE user. -/
def queuedSys : Sys :=
  handleDownloadCallbackAdmit freePlan freeJob (initialSys 7)

/-- The state after the first terminal transition of the successful run:
admission, task start, handle_download_complete. -/
def afterComplete : Sys :=
  handleDownloadComplete (taskStart queuedSys)

/-- The full successful lifecycle: admission, task start, completion
handler, task finalizer. -/
def afterLifecycle : Sys :=
  taskFinalize afterComplete

/-- C6 counterexample: over the whole successful lifecycle of one admitted
FREE-tier job the concurrency slot is released twice — once by
handle_download_complete and once by the task's finally block — not
exactly once as claimed. -/
theorem slot_released_twice :
    afterLifecycle.status = DownloadStatus.completed ∧
    afterLifecycle.releases = 2 ∧
    afterLifecycle.releases ≠ 1 := by
  decide

/-- C6 amended: a cancel issued by the owner after the job is COMPLETED is
rejected (the source returns a cannot-cancel error value rather than
raising) and causes no state change at all, in particular no release; over
the successful lifecycle the slot is incremented twice (admission and task
start) and released twice (completion handler and task finalizer), ending
balanced at 0; and a further admission for the same FREE user is still
denied after the first release (counter back at the limit 1) and becomes
possible only after the second. -/
theorem cancel_after_complete_releases_nothing (s : Sys)
    (h : s.status = DownloadStatus.completed) :
    cancelDownloadAsync s.userId s = (CancelOutcome.cannotCancel, s) ∧
    afterLifecycle.releases = 2 ∧
    concValue afterLifecycle.conc = 0 ∧
    handleDownloadCallbackAdmit freePlan freeJob2 afterComplete = afterComplete ∧
    concValue (handleDownloadCallbackAdmit freePlan freeJob2 afterLifecycle).conc = 1 := by
  refine ⟨?_, by decide, by decide, by decide, by decide⟩
  simp [cancelDownloadAsync, h]

/-- C6 witness: the rejected cancel at the concrete completed state. -/
theorem cancel_after_complete_releases_nothing_witness :
    cancelDownloadAsync afterComplete.userId afterComplete
      = (CancelOutcome.cannotCancel, afterComplete) :=
  (cancel_after_complete_releases_nothing afterComplete (by decide)).1

/-- C8: cancelling freeJob while QUEUED succeeds and marks it CANCELLED,
but leaves every queue lane untouched, so the lane scan that the spec's
dequeue_next performs still yields the cancelled job. -/
theorem cancelled_job_still_in_lane :
    (cancelDownloadAsync 7 queuedSys).1 = CancelOutcome.success ∧
    (cancelDownloadAsync 7 queuedSys).2.status = DownloadStatus.cancelled ∧
    (cancelDownloadAsync 7 queuedSys).2.queues = queuedSys.queues ∧
    (dequeueNext (cancelDownloadAsync 7 queuedSys).2.queues).1 = some freeJob := by
  decide

end BeastBot
